import Mathlib

set_option maxRecDepth 100000

/-!
Shallow embedding of the scripter PDF-to-Fountain converter.

The definitions below translate, line for line, the TypeScript sources:
the screenplay parser (`parseScreenplay` and its helper predicates), the
Fountain renderer's `getSpacingBefore` and `formatSceneHeading`, the page
splitter `parsePages` of the PDF reader, and the orchestration function
`convertPDFToFountain`.  JavaScript strings are modelled as Lean `String`
(treated as a list of characters), JS regular expressions as decidable
predicates over character lists, and JS `Record<string,string>` objects as
insertion-ordered association lists.
-/

/-- The ASCII members of the JS whitespace class `\s` (also used by
`String.prototype.trim`).  Astral/unicode space code points are not used by
any input considered here. -/
def isJsSpace (c : Char) : Bool :=
  c = ' ' || c = '\t' || c = '\n' || c = '\r' || c = '\x0B' || c = '\x0C'

/-- JS `String.prototype.trim`. -/
def jsTrim (s : String) : String :=
  ⟨((s.data.dropWhile isJsSpace).reverse.dropWhile isJsSpace).reverse⟩

/-- JS `String.prototype.trimEnd`. -/
def jsTrimEnd (s : String) : String :=
  ⟨(s.data.reverse.dropWhile isJsSpace).reverse⟩

def isAsciiUpper (c : Char) : Bool := 'A' ≤ c && c ≤ 'Z'

def isDigitChar (c : Char) : Bool := '0' ≤ c && c ≤ '9'

/-- JS `toUpperCase` (ASCII range; the inputs handled are ASCII). -/
def toUpperStr (s : String) : String := ⟨s.data.map Char.toUpper⟩

/-- JS `toLowerCase` (ASCII range). -/
def toLowerStr (s : String) : String := ⟨s.data.map Char.toLower⟩

/-- JS `String.prototype.endsWith` on character lists. -/
def endsWithList (suf cs : List Char) : Bool :=
  cs.drop (cs.length - suf.length) == suf

/-- JS `String.prototype.includes` for a single character. -/
def containsChar (c : Char) (s : String) : Bool := s.data.any (· = c)

/-- `String.prototype.split(sep)` accumulator: splits a character list at
every occurrence of `sep` (JS semantics: `"".split(c) = [""]`, empty chunks
kept). -/
def splitCharGo (sep : Char) : List Char → List Char → List (List Char)
  | [], acc => [acc.reverse]
  | c :: rest, acc =>
    if c = sep then acc.reverse :: splitCharGo sep rest []
    else splitCharGo sep rest (c :: acc)

def splitOnCharJs (sep : Char) (s : String) : List String :=
  (splitCharGo sep s.data []).map (fun cs => ⟨cs⟩)

/-- JS `Array.prototype.join(" ")`. -/
def joinWithSpace : List String → String
  | [] => ""
  | [x] => x
  | x :: rest => x ++ " " ++ joinWithSpace rest

/-- Everything after the first `:` of a line (JS
`line.substring(line.indexOf(":") + 1)`; `""` when there is no colon). -/
def afterFirstColon (s : String) : String :=
  ⟨(s.data.dropWhile (fun c => c ≠ ':')).tail⟩

/-!  A tiny matcher for the handful of regex shapes the sources use.
An atom consumes characters from the front of a list and returns every
possible remainder (which models the backtracking of the JS engine). -/

/-- Regex atoms occurring in the source patterns: a case-insensitive
literal, an optional dot `\.?`, one-or-more whitespace `\s+`, and
one-or-more digits `\d+`. -/
inductive RAtom where
  | lit : List Char → RAtom
  | optDot : RAtom
  | sp1 : RAtom
  | digits1 : RAtom

/-- Case-insensitive literal match, returning the remainder. -/
def matchLitCI : List Char → List Char → Option (List Char)
  | [], cs => some cs
  | _ :: _, [] => none
  | p :: ps, c :: cs => if p.toUpper = c.toUpper then matchLitCI ps cs else none

/-- All remainders after consuming one or more characters satisfying `p`. -/
def runsOf (p : Char → Bool) : List Char → List (List Char)
  | [] => []
  | c :: r => if p c then r :: runsOf p r else []

def runAtom : RAtom → List Char → List (List Char)
  | .lit pat, cs =>
    match matchLitCI pat cs with
    | some r => [r]
    | none => []
  | .optDot, cs =>
    match cs with
    | '.' :: r => [cs, r]
    | _ => [cs]
  | .sp1, cs => runsOf isJsSpace cs
  | .digits1, cs => runsOf isDigitChar cs

/-- All remainders of matching a sequence of atoms against the front of
`cs`. -/
def runSeq : List RAtom → List Char → List (List Char)
  | [], cs => [cs]
  | a :: rest, cs => ((runAtom a cs).map (fun r => runSeq rest r)).flatten

/-- Does some way of matching the atom sequence leave a remainder that
starts with a whitespace character?  (Models `^(alt)\s` / `^(alt)\s+` as
used by `RegExp.prototype.test`.) -/
def seqThenSpace (atoms : List RAtom) (cs : List Char) : Bool :=
  (runSeq atoms cs).any (fun r =>
    match r with
    | c :: _ => isJsSpace c
    | [] => false)

/-- Does some way of matching the atom sequence consume the whole input?
(Models a fully anchored `^...$` pattern.) -/
def seqMatchesAll (atoms : List RAtom) (cs : List Char) : Bool :=
  (runSeq atoms cs).any List.isEmpty

/-- The four scene-heading prefix alternatives shared by the parser's
`SCENE_HEADING_REGEX` and the renderer's reduced check:
`INT\.?|EXT\.?|INT\.?\/EXT\.?|I\.?\/E\.?`. -/
def coreSceneAlts : List (List RAtom) :=
  [ [.lit "INT".data, .optDot],
    [.lit "EXT".data, .optDot],
    [.lit "INT".data, .optDot, .lit "/".data, .lit "EXT".data, .optDot],
    [.lit "I".data, .optDot, .lit "/".data, .lit "E".data, .optDot] ]

/-- The extra alternatives only `SCENE_HEADING_REGEX` has:
`EST\.?|INT\.?\s+\/\s+EXT\.?|EXT\.?\s+\/\s+INT\.?`. -/
def extraSceneAlts : List (List RAtom) :=
  [ [.lit "EST".data, .optDot],
    [.lit "INT".data, .optDot, .sp1, .lit "/".data, .sp1, .lit "EXT".data, .optDot],
    [.lit "EXT".data, .optDot, .sp1, .lit "/".data, .sp1, .lit "INT".data, .optDot] ]

def scenePrefixAny (alts : List (List RAtom)) (s : String) : Bool :=
  alts.any (fun alt => seqThenSpace alt s.data)

/-- `SCENE_HEADING_REGEX.test` (screenplay-parser.ts line 5): case-insensitive
scene prefix followed by at least one whitespace character. -/
def sceneHeadingRegexTest (s : String) : Bool :=
  scenePrefixAny (coreSceneAlts ++ extraSceneAlts) s

/-- The renderer's reduced scene-prefix check
(`/^(INT\.?|EXT\.?|INT\.?\/EXT\.?|I\.?\/E\.?)\s/i` in `formatSceneHeading`):
no `EST` and no spaced-slash variants. -/
def rendererSceneTest (s : String) : Bool :=
  scenePrefixAny coreSceneAlts s

/-- `CHARACTER_REGEX.test`: `^[A-Z][A-Z\s\-'0-9().]*$` (case sensitive). -/
def characterRegexTest (s : String) : Bool :=
  match s.data with
  | [] => false
  | c :: rest =>
    isAsciiUpper c &&
      rest.all (fun d =>
        isAsciiUpper d || isJsSpace d || d = '-' || d = Char.ofNat 39 ||
        isDigitChar d || d = '(' || d = ')' || d = '.')

/-- `TRANSITION_REGEX.test`:
`^([A-Z\s]+TO:|FADE (IN|OUT|TO BLACK|TO WHITE):|CUT TO:|DISSOLVE TO:|MATCH CUT TO:)$`.
The first alternative holds exactly when the line ends in `TO:` and the
(nonempty) part before it consists of capitals and whitespace only. -/
def transitionRegexTest (s : String) : Bool :=
  let cs := s.data
  (decide (4 ≤ cs.length) &&
    (cs.drop (cs.length - 3) == ['T', 'O', ':']) &&
    (cs.take (cs.length - 3)).all (fun c => isAsciiUpper c || isJsSpace c)) ||
  s == "FADE IN:" || s == "FADE OUT:" || s == "FADE TO BLACK:" ||
  s == "FADE TO WHITE:" || s == "CUT TO:" || s == "DISSOLVE TO:" ||
  s == "MATCH CUT TO:"

/-- `PARENTHETICAL_REGEX.test`: `^\([^)]+\)$`. -/
def parentheticalRegexTest (s : String) : Bool :=
  let cs := s.data
  decide (3 ≤ cs.length) && (cs.head? == some '(') && (cs.getLast? == some ')') &&
    ((cs.drop 1).take (cs.length - 2)).all (fun c => c ≠ ')')

/-- `NOTE_REGEX.test`: `^\[\[.*\]\]$`. -/
def noteRegexTest (s : String) : Bool :=
  let cs := s.data
  decide (4 ≤ cs.length) && (cs.take 2 == ['[', '[']) &&
    (cs.drop (cs.length - 2) == [']', ']'])

def digitsTest (cs : List Char) : Bool := !cs.isEmpty && cs.all isDigitChar

/-- `^\d+\.?$`. -/
def pageNumP1 (s : String) : Bool :=
  let cs := s.data
  match cs.getLast? with
  | some c => if c = '.' then digitsTest cs.dropLast else digitsTest cs
  | none => false

/-- `^(page\s+)?\d+(\s+of\s+\d+)?$/i` as its four expansions. -/
def pageNumAlts : List (List RAtom) :=
  [ [.digits1],
    [.lit "PAGE".data, .sp1, .digits1],
    [.digits1, .sp1, .lit "OF".data, .sp1, .digits1],
    [.lit "PAGE".data, .sp1, .digits1, .sp1, .lit "OF".data, .sp1, .digits1] ]

def pageNumP2 (s : String) : Bool :=
  pageNumAlts.any (fun alt => seqMatchesAll alt s.data)

/-- A digit run wrapped in a fixed pair of brackets. -/
def wrappedDigits (openC closeC : Char) (cs : List Char) : Bool :=
  (cs.head? == some openC) && (cs.getLast? == some closeC) &&
    digitsTest ((cs.drop 1).dropLast)

/-- `^(\d+\.|\(\d+\)|\[\d+\])$`. -/
def pageNumP3 (s : String) : Bool :=
  let cs := s.data
  ((cs.getLast? == some '.') && digitsTest cs.dropLast) ||
  wrappedDigits '(' ')' cs || wrappedDigits '[' ']' cs

/-- `isPageNumber` (screenplay-parser.ts lines 510-527). -/
def isPageNumber (s : String) : Bool :=
  pageNumP1 s || pageNumP2 s || pageNumP3 s

/-! ## Data model (types/fountain.ts, types/pdf.ts) -/

/-- `FountainElement` (the optional `metadata` field is never set by the
parser and never read by the renderer). -/
structure FountainElement where
  type : String
  text : String
deriving Repr, DecidableEq

structure PDFPage where
  pageNumber : Nat
  text : String
  lines : List String
deriving Repr, DecidableEq

/-- `PDFContent`; the open `metadata` record is modelled as an association
list of string fields (only `title` is ever read, in `parseScreenplay`). -/
structure PDFContent where
  text : String
  pages : List PDFPage
  metadata : Option (List (String × String)) := none
deriving Repr, DecidableEq

/-- `ConversionOptions`: every field optional. -/
structure ConversionOptions where
  preserveFormatting : Option Bool := none
  detectSceneHeadings : Option Bool := none
  detectCharacterNames : Option Bool := none
  includeMetadata : Option Bool := none
  strictMode : Option Bool := none
deriving Repr, DecidableEq

/-- Conversion metadata attached to a document; `convertedAt` (a wall-clock
ISO timestamp in the source) is threaded in as a parameter. -/
structure DocMetadata where
  convertedFrom : String
  convertedAt : String
  pageCount : Option Nat
deriving Repr, DecidableEq

/-- `FountainDocument`; `titlePage` is an insertion-ordered string map. -/
structure FountainDocument where
  elements : List FountainElement
  titlePage : Option (List (String × String)) := none
  metadata : Option DocMetadata := none
deriving Repr, DecidableEq

structure ConversionResult where
  success : Bool
  document : Option FountainDocument := none
  warnings : Option (List String) := none
  errors : Option (List String) := none
deriving Repr, DecidableEq

/-- `ParserState` (screenplay-parser.ts lines 28-36). -/
structure ParserState where
  currentElementType : Option String
  lastCharacterName : Option String
  expectingDialogue : Bool
  inTitlePage : Bool
  titlePageLines : List String
  sceneCount : Nat
  warnings : List String
deriving Repr, DecidableEq

/-- The option record with defaults applied (lines 63-69). -/
structure OptsR where
  detectSceneHeadings : Bool
  detectCharacterNames : Bool
  includeMetadata : Bool
  strictMode : Bool
  preserveFormatting : Bool
deriving Repr, DecidableEq

def resolveOpts (o : ConversionOptions) : OptsR where
  detectSceneHeadings := o.detectSceneHeadings.getD true
  detectCharacterNames := o.detectCharacterNames.getD true
  includeMetadata := o.includeMetadata.getD true
  strictMode := o.strictMode.getD false
  preserveFormatting := o.preserveFormatting.getD true

/-! ## The classifier predicates (screenplay-parser.ts lines 349-527) -/

/-- `isSceneHeading` (lines 349-371). -/
def isSceneHeading (line : String) (strictMode : Bool) : Bool :=
  if !sceneHeadingRegexTest line then false
  else if strictMode then
    if 80 < line.data.length then false
    else
      match line.data.getLast? with
      | some c =>
        if c = ',' || c = ';' || c = ':' || c = '!' || c = '?' then false else true
      | none => true
  else true

def TRANSITION_KEYWORDS : List String :=
  ["TO:", "FADE IN:", "FADE OUT:", "FADE TO BLACK:", "FADE TO WHITE:",
   "CUT TO:", "DISSOLVE TO:", "MATCH CUT TO:", "SMASH CUT TO:", "JUMP CUT TO:"]

/-- `isTransition` (lines 472-489). -/
def isTransition (line : String) (strictMode : Bool) : Bool :=
  if transitionRegexTest line then true
  else if !strictMode then
    let upperLine := toUpperStr line
    TRANSITION_KEYWORDS.any (fun keyword =>
      upperLine == keyword || endsWithList keyword.data upperLine.data)
  else false

def commonActionWords : List String :=
  ["FADE IN", "FADE OUT", "THE END", "CONTINUED", "BACK TO", "LATER", "MEANWHILE"]

/-- `isCharacterName` (lines 391-452).  The trailing context checks of the
source all return `true`, which the final three branches reproduce. -/
def isCharacterName (line : String) (state : ParserState) (strictMode : Bool) : Bool :=
  if !characterRegexTest line then false
  else if transitionRegexTest line then false
  else if sceneHeadingRegexTest line then false
  else if line.data.length < 2 then false
  else if strictMode && 40 < line.data.length then false
  else if strictMode && state.currentElementType == some "character" then false
  else if strictMode && commonActionWords.contains line then false
  else if state.currentElementType == some "scene_heading" then true
  else if state.currentElementType == some "action" then true
  else true

/-- The end-anchored replace `/\s*\([^)]+\)\s*$/` of lines 202 and 276,
without the final `.trim()`: drops a trailing parenthesized extension
(leftmost-match semantics; the whitespace the `\s*` before the `(` removes
is left in place here because the caller trims the result anyway). -/
def removeCharExtension (s : String) : String :=
  let cs := s.data
  let rev := cs.reverse.dropWhile isJsSpace
  match rev with
  | ')' :: rest =>
    let run := rest.takeWhile (fun c => c ≠ ')')
    let seg := run.reverse
    match seg.findIdx? (fun c => c = '(') with
    | some i =>
      if i + 1 < seg.length then ⟨(rest.drop run.length).reverse ++ seg.take i⟩
      else s
    | none => s
  | _ => s

/-- `trimmedLine.replace(/\s*\([^)]+\)\s*$/, "").trim()`. -/
def cleanName (s : String) : String := jsTrim (removeCharExtension s)

/-! ## `parseTitlePage` (lines 550-598) -/

/-- JS object field lookup on the association-list model. -/
def recordGet (m : List (String × String)) (k : String) : Option String :=
  (m.find? (fun p => p.1 == k)).map (·.2)

/-- JS object field assignment: overwrite in place, or append a new key. -/
def recordSet (m : List (String × String)) (k v : String) : List (String × String) :=
  if m.any (fun p => p.1 == k) then
    m.map (fun p => if p.1 == k then (k, v) else p)
  else m ++ [(k, v)]

def titleFields : List String :=
  ["title", "author", "credit", "source", "draft", "date", "contact"]

/-- Save the pending field (`if (currentField && currentValue.length > 0)`). -/
def saveTitleField (m : List (String × String)) (cf : Option String)
    (cv : List String) : List (String × String) :=
  match cf with
  | some f => if cv.isEmpty then m else recordSet m f (jsTrim (joinWithSpace cv))
  | none => m

def parseTitlePageGo (m : List (String × String)) (cf : Option String)
    (cv : List String) : List String → List (String × String)
  | [] => saveTitleField m cf cv
  | line :: rest =>
    let lowerLine := toLowerStr line
    match titleFields.find? (fun field =>
        field.data.isPrefixOf lowerLine.data && containsChar ':' lowerLine) with
    | some field =>
      parseTitlePageGo (saveTitleField m cf cv) (some field)
        [jsTrim (afterFirstColon line)] rest
    | none =>
      match cf with
      | some _ => parseTitlePageGo m cf (cv ++ [line]) rest
      | none =>
        let m1 :=
          match recordGet m "title" with
          | none => recordSet m "title" line
          | some t =>
            if t = "" then recordSet m "title" line
            else recordSet m "title" (t ++ " " ++ line)
        parseTitlePageGo m1 cf cv rest

def parseTitlePage (lines : List String) : List (String × String) :=
  parseTitlePageGo [] none [] lines

/-! ## The parser state machine (`parseScreenplay`, lines 58-330) -/

def initState : ParserState where
  currentElementType := none
  lastCharacterName := none
  expectingDialogue := false
  inTitlePage := true
  titlePageLines := []
  sceneCount := 0
  warnings := []

/-- The body classification of one trimmed line, lines 166-231 of the loop
(scene heading, transition, parenthetical, character, dialogue, action). -/
def processBodyLine (opts : OptsR) (st : ParserState) (trimmedLine : String) :
    ParserState × List FountainElement :=
  if opts.detectSceneHeadings && isSceneHeading trimmedLine opts.strictMode then
    ({ st with sceneCount := st.sceneCount + 1, expectingDialogue := false,
               currentElementType := some "scene_heading" },
     [⟨"scene_heading", trimmedLine⟩])
  else if isTransition trimmedLine opts.strictMode then
    ({ st with expectingDialogue := false, currentElementType := some "transition" },
     [⟨"transition", trimmedLine⟩])
  else if st.expectingDialogue && parentheticalRegexTest trimmedLine then
    (st, [⟨"parenthetical", trimmedLine⟩])
  else if opts.detectCharacterNames && isCharacterName trimmedLine st opts.strictMode then
    ({ st with lastCharacterName := some (cleanName trimmedLine),
               expectingDialogue := true, currentElementType := some "character" },
     [⟨"character", trimmedLine⟩])
  else if st.expectingDialogue then
    ({ st with currentElementType := some "dialogue" }, [⟨"dialogue", trimmedLine⟩])
  else
    ({ st with currentElementType := some "action" }, [⟨"action", trimmedLine⟩])

/-- One iteration of the main loop (lines 94-231): page-break marker, blank
line, page number, note, title-page accumulation (with scene exit,
detection-disabled exit, and 15-line-cap flush), then body classification. -/
def processLine (opts : OptsR) (st : ParserState) (line : String) :
    ParserState × List FountainElement :=
  if line = "___PAGE_BREAK___" then
    (st, [⟨"page_break", ""⟩])
  else
    let trimmedLine := jsTrim line
    if trimmedLine = "" then
      let st1 :=
        if st.inTitlePage then { st with titlePageLines := st.titlePageLines ++ [""] }
        else st
      let st2 :=
        if st1.expectingDialogue then
          { st1 with expectingDialogue := false, lastCharacterName := none }
        else st1
      (st2, [])
    else if isPageNumber trimmedLine then (st, [])
    else if noteRegexTest trimmedLine then (st, [⟨"note", trimmedLine⟩])
    else if st.inTitlePage then
      if opts.detectSceneHeadings && isSceneHeading trimmedLine opts.strictMode then
        processBodyLine opts
          { st with inTitlePage := false, sceneCount := st.sceneCount + 1 } trimmedLine
      else if !opts.detectSceneHeadings then
        processBodyLine opts { st with inTitlePage := false } trimmedLine
      else if 15 ≤ st.titlePageLines.length then
        let flushed := st.titlePageLines.map (fun l => (⟨"action", l⟩ : FountainElement))
        let res := processBodyLine opts
          { st with titlePageLines := [], inTitlePage := false } trimmedLine
        (res.1, flushed ++ res.2)
      else
        ({ st with titlePageLines := st.titlePageLines ++ [trimmedLine] }, [])
    else processBodyLine opts st trimmedLine

/-- Folding the main loop over the line sequence. -/
def runLines (opts : OptsR) (st : ParserState) : List String →
    ParserState × List FountainElement
  | [] => (st, [])
  | l :: ls =>
    let r1 := processLine opts st l
    let r2 := runLines opts r1.1 ls
    (r2.1, r1.2 ++ r2.2)

/-- One iteration of the end-of-input re-parse of the title-page buffer
(lines 248-306): blank, parenthetical, character, dialogue, transition,
action — in that order. -/
def reparseLine (opts : OptsR) (st : ParserState) (titleLine : String) :
    ParserState × List FountainElement :=
  let trimmedLine := jsTrim titleLine
  if trimmedLine = "" then
    (if st.expectingDialogue then
      { st with expectingDialogue := false, lastCharacterName := none }
     else st, [])
  else if st.expectingDialogue && parentheticalRegexTest trimmedLine then
    (st, [⟨"parenthetical", trimmedLine⟩])
  else if opts.detectCharacterNames && isCharacterName trimmedLine st opts.strictMode then
    ({ st with lastCharacterName := some (cleanName trimmedLine),
               expectingDialogue := true, currentElementType := some "character" },
     [⟨"character", trimmedLine⟩])
  else if st.expectingDialogue then
    ({ st with currentElementType := some "dialogue" }, [⟨"dialogue", trimmedLine⟩])
  else if isTransition trimmedLine opts.strictMode then
    ({ st with expectingDialogue := false, currentElementType := some "transition" },
     [⟨"transition", trimmedLine⟩])
  else
    ({ st with expectingDialogue := false, currentElementType := some "action" },
     [⟨"action", trimmedLine⟩])

def runReparse (opts : OptsR) (st : ParserState) : List String →
    ParserState × List FountainElement
  | [] => (st, [])
  | l :: ls =>
    let r1 := reparseLine opts st l
    let r2 := runReparse opts r1.1 ls
    (r2.1, r1.2 ++ r2.2)

/-- The fresh state the re-parse starts from (lines 237-245). -/
def reparsedInit : ParserState where
  currentElementType := none
  lastCharacterName := none
  expectingDialogue := false
  inTitlePage := false
  titlePageLines := []
  sceneCount := 0
  warnings := []

/-- Lines 84-91: concatenate the pages' lines, pushing the synthetic
page-break marker after every page whose `pageNumber` is less than the
number of pages. -/
def buildFromPages (n : Nat) (ps : List PDFPage) : List String :=
  (ps.map (fun p =>
    p.lines ++ if p.pageNumber < n then ["___PAGE_BREAK___"] else [])).flatten

def buildAllLines (c : PDFContent) : List String :=
  buildFromPages c.pages.length c.pages

/-- `parseScreenplay` (lines 58-330).  `convertedAt` threads in the wall
clock read by `new Date().toISOString()`. -/
def parseScreenplay (pdfContent : PDFContent) (options : ConversionOptions)
    (convertedAt : String) : FountainDocument :=
  let opts := resolveOpts options
  let main := runLines opts initState (buildAllLines pdfContent)
  let st := main.1
  let withReparse :=
    if st.inTitlePage && decide (0 < st.titlePageLines.length) && st.sceneCount == 0 then
      (main.2 ++ (runReparse opts reparsedInit st.titlePageLines).2,
       { st with titlePageLines := [] })
    else (main.2, st)
  let stAfter := withReparse.2
  let titlePage :=
    if decide (0 < stAfter.titlePageLines.length) && decide (0 < stAfter.sceneCount) then
      some (parseTitlePage stAfter.titlePageLines)
    else none
  let metadata :=
    if opts.includeMetadata then
      some { convertedFrom :=
               match pdfContent.metadata.bind (fun m => recordGet m "title") with
               | some t => if t = "" then "PDF Screenplay" else t
               | none => "PDF Screenplay"
             convertedAt := convertedAt
             pageCount := some pdfContent.pages.length }
    else none
  { elements := withReparse.1, titlePage := titlePage, metadata := metadata }

/-! ## Fountain renderer fragments (fountain-generator.ts) -/

/-- `getSpacingBefore` (fountain-generator.ts lines 260-318).  Note the
`character` block: when the previous element is also a `character` none of
its returns fire and control falls through to the final default. -/
def getSpacingBefore (element : FountainElement) (prevElement : Option FountainElement) :
    String :=
  match prevElement with
  | none => ""
  | some prev =>
    let t := element.type
    let prevType := prev.type
    if t = "scene_heading" then "\n\n"
    else if t = "character" && (prevType = "dialogue" || prevType = "parenthetical") then "\n\n"
    else if t = "character" && prevType ≠ "character" then "\n\n"
    else if t = "dialogue" && prevType = "character" then "\n"
    else if t = "parenthetical" then "\n"
    else if t = "dialogue" && prevType = "parenthetical" then "\n"
    else if t = "action" then
      -- the three sub-branches of the source all return a blank line
      if prevType = "scene_heading" then "\n\n"
      else if prevType = "action" then "\n\n"
      else "\n\n"
    else if t = "transition" then "\n\n"
    else "\n\n"

/-- `formatSceneHeading` (lines 324-338): emit trimmed text, prepending a
`.` when the renderer's reduced prefix check fails. -/
def formatSceneHeading (element : FountainElement) : String :=
  let text := jsTrim element.text
  if rendererSceneTest text then text ++ "\n"
  else ("." ++ text) ++ "\n"

/-! ## `parsePages` (pdf-reader.ts lines 95-131) -/

/-- Split the extracted text on form feeds, number the chunks 1-based,
skip blank chunks, and split each surviving chunk into trailing-whitespace
trimmed lines; fall back to a single page when nothing survived. -/
def parsePages (text : String) (_totalPages : Nat) : List PDFPage :=
  let pageTexts := splitOnCharJs '\x0C' text
  let pages := pageTexts.enum.filterMap (fun pair =>
    if jsTrim pair.2 = "" then none
    else some { pageNumber := pair.1 + 1, text := pair.2,
                lines := (splitOnCharJs '\n' pair.2).map jsTrimEnd })
  if pages.isEmpty && !(jsTrim text = "") then
    [{ pageNumber := 1, text := text,
       lines := (splitOnCharJs '\n' text).map jsTrimEnd }]
  else pages

/-! ## `convertPDFToFountain` (src/lib/converter.ts lines 50-143) -/

/-- `countElementsByType` (converter.ts lines 133-143). -/
def countsBump (m : List (String × Nat)) (k : String) : List (String × Nat) :=
  if m.any (fun p => p.1 == k) then
    m.map (fun p => if p.1 == k then (p.1, p.2 + 1) else p)
  else m ++ [(k, 1)]

def countElementsByType (elements : List FountainElement) : List (String × Nat) :=
  elements.foldl (fun m e => countsBump m e.type) []

/-- JS property read `counts[t]`: `none` models `undefined`. -/
def countsGet (m : List (String × Nat)) (k : String) : Option Nat :=
  (m.find? (fun p => p.1 == k)).map (·.2)

/-- `convertPDFToFountain`.  The `readPDF` call is the asynchronous,
external boundary: its outcome (a thrown error message, or a `PDFContent`)
is the `Except` input; everything after it is translated directly.  The
discarded validation call to the total function `generateFountain` at line
100 is omitted.  Note `elementCounts.scene_heading === 0` can never hold
(a stored count is at least 1 and a missing key reads as `undefined`), so
those three warnings are dead; they are modelled faithfully anyway. -/
def convertPDFToFountain (readResult : Except String PDFContent)
    (options : ConversionOptions) (convertedAt : String) : ConversionResult :=
  match readResult with
  | .error msg => { success := false, errors := some [msg] }
  | .ok pdfContent =>
    if jsTrim pdfContent.text = "" then
      { success := false,
        errors := some ["PDF file appears to be empty or contains no readable text"] }
    else if pdfContent.pages.length = 0 then
      { success := false, errors := some ["PDF file has no pages"] }
    else
      let doc := parseScreenplay pdfContent options convertedAt
      let warnings :=
        (if doc.elements.length = 0 then
          ["No screenplay elements were detected in the PDF"] else []) ++
        (let elementCounts := countElementsByType doc.elements
         (if countsGet elementCounts "scene_heading" == some 0 &&
             options.detectSceneHeadings.getD true then
           ["No scene headings detected. The PDF may not be a screenplay."] else []) ++
         (if countsGet elementCounts "character" == some 0 &&
             options.detectCharacterNames.getD true then
           ["No character names detected. The PDF may not be a screenplay."] else []) ++
         (if countsGet elementCounts "dialogue" == some 0 then
           ["No dialogue detected. This may be an action-heavy screenplay or not a screenplay at all."]
          else []))
      { success := true, document := some doc,
        warnings := if 0 < warnings.length then some warnings else none }

/-! ## Derived views of the parser used by the statements below -/

/-- The main single pass of `parseScreenplay` over the concatenated line
sequence. -/
def mainPass (c : PDFContent) (o : ConversionOptions) :
    ParserState × List FountainElement :=
  runLines (resolveOpts o) initState (buildAllLines c)

/-- The elements the end-of-input re-parse of the title-page buffer appends
after the main pass (empty when the fallback does not fire). -/
def reparseTailD (c : PDFContent) (o : ConversionOptions) : List FountainElement :=
  let st := (mainPass c o).1
  if st.inTitlePage && decide (0 < st.titlePageLines.length) && st.sceneCount == 0 then
    (runReparse (resolveOpts o) reparsedInit st.titlePageLines).2
  else []

/-- `runLines`, keeping each line's emitted elements as a separate block
(the k-th block belongs to the k-th line). -/
def runLinesPieces (opts : OptsR) (st : ParserState) :
    List String → ParserState × List (List FountainElement)
  | [] => (st, [])
  | l :: ls =>
    let r1 := processLine opts st l
    let r2 := runLinesPieces opts r1.1 ls
    (r2.1, r1.2 :: r2.2)

/-- `runReparse`, one block of output per buffered line. -/
def runReparsePieces (opts : OptsR) (st : ParserState) :
    List String → ParserState × List (List FountainElement)
  | [] => (st, [])
  | l :: ls =>
    let r1 := reparseLine opts st l
    let r2 := runReparsePieces opts r1.1 ls
    (r2.1, r1.2 :: r2.2)

/-- A line of the concatenated sequence that the spec property C1 says must
yield exactly one element: non-blank after trimming and not a recognized
page number (the synthetic marker is counted separately since it yields
exactly one `page_break`). -/
def countsAsElement (l : String) : Bool :=
  l == "___PAGE_BREAK___" || (!(jsTrim l == "") && !isPageNumber (jsTrim l))

/-- Pages' line blocks joined with exactly one page-break marker between
adjacent blocks and none at either end. -/
def interleaveMarkers : List (List String) → List String
  | [] => []
  | [ls] => ls
  | ls :: rest => ls ++ "___PAGE_BREAK___" :: interleaveMarkers rest

def isPageBreakElem (e : FountainElement) : Bool := e.type == "page_break"

/-- Invariant used for C1: while the parser has never left title-page mode
with scene detection off, the buffer holds only blank lines. -/
def bufferAllBlank (st : ParserState) : Prop :=
  st.inTitlePage = true → ∀ l ∈ st.titlePageLines, l = ""

/-! ## Concrete inputs for the counterexamples and witnesses -/

def optsNone : ConversionOptions := {}

def optsNoScenes : ConversionOptions := { detectSceneHeadings := some false }

/-- One page whose leading line is absorbed into a committed title page. -/
def titleAbsorbContent : PDFContent :=
  { text := "My Script\nINT. HOUSE - DAY",
    pages := [{ pageNumber := 1, text := "My Script\nINT. HOUSE - DAY",
                lines := ["My Script", "INT. HOUSE - DAY"] }] }

/-- One page where a note line follows a buffered leading line. -/
def noteReorderContent : PDFContent :=
  { text := "My Script\n[[note]]",
    pages := [{ pageNumber := 1, text := "My Script\n[[note]]",
                lines := ["My Script", "[[note]]"] }] }

/-- 14 filler lines, then a 15th accumulated line and a 16th line that
triggers the title-page cap flush. -/
def capFlushContent : PDFContent :=
  { text := "x",
    pages := [{ pageNumber := 1, text := "x",
                lines := List.replicate 14 "some action text" ++ ["JOHN", "Hello."] }] }

/-- The pages `parsePages` produces from `"\f a \f b"`-style text whose
first form-feed chunk is empty: page numbers 2 and 3. -/
def gapPagesContent : PDFContent :=
  { text := "\x0Ca\x0Cb",
    pages := [{ pageNumber := 2, text := "a", lines := ["a"] },
              { pageNumber := 3, text := "b", lines := ["b"] }] }

/-- Two consecutively numbered pages. -/
def twoPagesContent : PDFContent :=
  { text := "a\x0Cb",
    pages := [{ pageNumber := 1, text := "a", lines := ["a"] },
              { pageNumber := 2, text := "b", lines := ["b"] }] }

/-- The spec's dialogue example input. -/
def johnContent : PDFContent :=
  { text := "JOHN\nHello.\n\nHe walks away.",
    pages := [{ pageNumber := 1, text := "JOHN\nHello.\n\nHe walks away.",
                lines := ["JOHN", "Hello.", "", "He walks away."] }] }

/-- A PDF with no extractable text and no pages. -/
def emptyPdfContent : PDFContent := { text := "", pages := [] }

/-- A title-page buffer already at the 15-line cap. -/
def stCap : ParserState := { initState with titlePageLines := List.replicate 15 "x" }

/-! ## Theorems -/

/-- C8: parsing the single-page input `["JOHN", "Hello.", "", "He walks
away."]` with default options yields exactly
`[character "JOHN", dialogue "Hello.", action "He walks away."]` — the
blank line clears the dialogue expectation, so the final line is an action
(here the classification happens in the end-of-input re-parse of the
title-page buffer, which reproduces exactly this sequence). -/
theorem C8_example_sequence :
    (parseScreenplay johnContent optsNone "T").elements =
      [⟨"character", "JOHN"⟩, ⟨"dialogue", "Hello."⟩, ⟨"action", "He walks away."⟩] := by
  decide

/-- C1 counterexample: in `titleAbsorbContent` both lines are non-blank,
non-page-number, non-marker (the qualifying-line count is 2), yet the
document has a single element — the leading line is absorbed into the
committed title page and yields no element, contradicting the claimed
one-element-per-line property. -/
theorem C1_counterexample :
    (buildAllLines titleAbsorbContent).countP countsAsElement = 2 ∧
      (parseScreenplay titleAbsorbContent optsNone "T").elements.length = 1 := by
  constructor <;> decide

/-- C2 counterexample: with input lines `["My Script", "[[note]]"]` the
note from line 1 is emitted during the main pass while line 0 sits in the
title-page buffer; the end-of-input re-parse then appends line 0's action
after it, so the element of the earlier line follows the element of the
later line. -/
theorem C2_counterexample :
    (parseScreenplay noteReorderContent optsNone "T").elements =
      [⟨"note", "[[note]]"⟩, ⟨"action", "My Script"⟩] := by
  decide

/-- C4 counterexample: when the previous element is itself a character,
`getSpacingBefore` still returns two newlines (the character block falls
through to the final default), not the empty separator the claim states. -/
theorem C4_counterexample :
    getSpacingBefore ⟨"character", "B"⟩ (some ⟨"character", "A"⟩) = "\n\n" := by
  decide

/-- C5 counterexample: with 14 filler lines, then `"JOHN"`, then
`"Hello."`, the 15th candidate (`"JOHN"`) is still appended to the buffer
(the guard `length >= 15` is checked before appending); only the 16th line
triggers the flush, so `"JOHN"` is flushed as an action rather than being
processed in BODY as the character cue the claim predicts at element 14. -/
theorem C5_counterexample :
    (parseScreenplay capFlushContent optsNone "T").elements.map (·.type) =
      List.replicate 16 "action" := by
  decide

/-- C6 counterexample: `parsePages` on text whose first form-feed chunk is
blank produces adjacent pages numbered 2 and 3; `parseScreenplay` then
inserts no page-break marker between them (the guard compares `pageNumber`,
not adjacency), so no `page_break` element separates the two pages. -/
theorem C6_counterexample :
    parsePages "\x0Ca\x0Cb" 2 = gapPagesContent.pages ∧
      (parseScreenplay gapPagesContent optsNone "T").elements =
        [⟨"action", "a"⟩, ⟨"action", "b"⟩] := by
  constructor <;> decide

/-- C7 counterexample: `"EST. HOUSE - DAY"` matches the parser's
scene-heading prefix pattern of section 4.1, yet the renderer prepends a
literal `.` to it because its own reduced check has no `EST` alternative. -/
theorem C7_counterexample :
    sceneHeadingRegexTest "EST. HOUSE - DAY" = true ∧
      formatSceneHeading ⟨"scene_heading", "EST. HOUSE - DAY"⟩ = ".EST. HOUSE - DAY\n" := by
  constructor <;> decide

/-- C4 amended: in the Fountain renderer's blank-line-prefix rule, a
character element is preceded by 2 newlines whenever any element precedes
it — including when the previous element is itself a character, since the
consecutive-character case falls through to the renderer's default
two-newline separator. -/
theorem C4_amended_theorem (e : FountainElement) (prev : FountainElement)
    (h : e.type = "character") : getSpacingBefore e (some prev) = "\n\n" := by
  unfold getSpacingBefore
  simp only [h]
  split_ifs <;> simp_all

/-- C4 witness: a character cue after an action gets the blank line. -/
theorem C4_witness : getSpacingBefore ⟨"character", "X"⟩ (some ⟨"action", "Y"⟩) = "\n\n" :=
  C4_amended_theorem ⟨"character", "X"⟩ ⟨"action", "Y"⟩ rfl

/-- C7 amended: the renderer checks a reduced prefix pattern — the
case-insensitive alternatives INT, EXT, INT/EXT, I/E with optional periods
followed by a whitespace character, without the EST and spaced-slash
variants of the parser's section 4.1 pattern — emitting the trimmed text
as-is when it matches and prepending a literal `.` otherwise (so headings
only the full pattern accepts, such as `EST. ...`, get a `.`); every text
the reduced pattern accepts is also accepted by the section 4.1 pattern. -/
theorem C7_amended_theorem :
    (∀ e : FountainElement, formatSceneHeading e =
      (if rendererSceneTest (jsTrim e.text) then jsTrim e.text
       else "." ++ jsTrim e.text) ++ "\n")
    ∧ (∀ s : String, rendererSceneTest s = true → sceneHeadingRegexTest s = true) := by
  constructor
  · intro e
    by_cases h : rendererSceneTest (jsTrim e.text) <;> simp [formatSceneHeading, h]
  · intro s h
    simp only [rendererSceneTest, scenePrefixAny] at h
    simp only [sceneHeadingRegexTest, scenePrefixAny, List.any_append, h, Bool.true_or]

/-- C7 witness: `INT. A` passes the reduced check, hence also the full
section 4.1 pattern. -/
theorem C7_witness : sceneHeadingRegexTest "INT. A" = true :=
  C7_amended_theorem.2 "INT. A" (by decide)

/-- C5 amended: while accumulating with scene-heading detection on, the
buffer is flushed when a candidate line (non-marker, non-blank,
non-page-number, non-note, non-scene-heading) arrives while the buffer
already holds at least 15 lines — i.e. on the 16th accumulated candidate at
the earliest, since the guard is checked before appending and the 15th line
is itself buffered (blank lines are buffered without the cap check, so the
flush can cover more than 15 lines).  Each buffered line, blanks included,
becomes exactly one action element in buffer order, the parser leaves
title-page mode, and the current line is processed normally in BODY. -/
theorem C5_amended_theorem (opts : OptsR) (st : ParserState) (l : String)
    (hT : st.inTitlePage = true) (hdet : opts.detectSceneHeadings = true)
    (hm : l ≠ "___PAGE_BREAK___") (hb : jsTrim l ≠ "")
    (hp : isPageNumber (jsTrim l) = false) (hn : noteRegexTest (jsTrim l) = false)
    (hs : isSceneHeading (jsTrim l) opts.strictMode = false)
    (hcap : 15 ≤ st.titlePageLines.length) :
    processLine opts st l =
      ((processBodyLine opts
          { st with titlePageLines := [], inTitlePage := false } (jsTrim l)).1,
        st.titlePageLines.map (fun t => (⟨"action", t⟩ : FountainElement)) ++
          (processBodyLine opts
            { st with titlePageLines := [], inTitlePage := false } (jsTrim l)).2) := by
  unfold processLine
  simp [hm, hb, hp, hn, hT, hdet, hs, hcap]

/-- C5 witness: a full 15-line buffer plus the candidate `"Hello."`
flushes the buffer as actions and classifies the candidate in BODY. -/
theorem C5_witness :
    (15 ≤ stCap.titlePageLines.length) ∧
      processLine (resolveOpts optsNone) stCap "Hello." =
        ((processBodyLine (resolveOpts optsNone)
            { stCap with titlePageLines := [], inTitlePage := false } (jsTrim "Hello.")).1,
          stCap.titlePageLines.map (fun t => (⟨"action", t⟩ : FountainElement)) ++
            (processBodyLine (resolveOpts optsNone)
              { stCap with titlePageLines := [], inTitlePage := false } (jsTrim "Hello.")).2) :=
  ⟨by decide,
    C5_amended_theorem (resolveOpts optsNone) stCap "Hello." rfl rfl (by decide)
      (by decide) (by decide) (by decide) (by decide) (by decide)⟩

/-- C10: a page-number line, and a double-bracket note line, are
intercepted before the title-page handling of the main loop: for any
parser state (in particular while still accumulating a title page) and any
non-marker, non-blank line, a recognized page number is dropped with the
state (and thus the title-page buffer) unchanged, and a note line is
emitted immediately as a `note` element with the state unchanged — so
neither can enter the buffer, a committed title page's fields, or the
flushed/reclassified leading-line elements. -/
theorem C10_note_pagenumber_intercept (opts : OptsR) (st : ParserState) (l : String)
    (hm : l ≠ "___PAGE_BREAK___") (hb : jsTrim l ≠ "") :
    (isPageNumber (jsTrim l) = true → processLine opts st l = (st, []))
    ∧ (isPageNumber (jsTrim l) = false → noteRegexTest (jsTrim l) = true →
        processLine opts st l = (st, [⟨"note", jsTrim l⟩])) := by
  constructor
  · intro hp
    unfold processLine
    simp [hm, hb, hp]
  · intro hp hn
    unfold processLine
    simp [hm, hb, hp, hn]

/-- C10 witness: with the initial (accumulating) state, `"[[a]]"` is
emitted as a note and `"42"` is dropped, both leaving the state intact. -/
theorem C10_witness :
    processLine (resolveOpts optsNone) initState "[[a]]" =
        (initState, [⟨"note", "[[a]]"⟩]) ∧
      processLine (resolveOpts optsNone) initState "42" = (initState, []) :=
  ⟨(C10_note_pagenumber_intercept (resolveOpts optsNone) initState "[[a]]"
      (by decide) (by decide)).2 (by decide) (by decide),
    (C10_note_pagenumber_intercept (resolveOpts optsNone) initState "42"
      (by decide) (by decide)).1 (by decide)⟩

/-- C9: `convertPDFToFountain` never returns a partial result: for every
outcome of the PDF read, every option set, and every timestamp, the result
either has `success = true` with a document and no `errors` field, or has
`success = false` with an `errors` list and no document; moreover a read
that yields no extractable text or zero pages fails (errors, no document)
before any parsing occurs. -/
theorem C9_no_partial_result (r : Except String PDFContent)
    (o : ConversionOptions) (ts : String) :
    (((convertPDFToFountain r o ts).success = true ∧
        (convertPDFToFountain r o ts).document.isSome = true ∧
        (convertPDFToFountain r o ts).errors = none) ∨
      ((convertPDFToFountain r o ts).success = false ∧
        (convertPDFToFountain r o ts).errors.isSome = true ∧
        (convertPDFToFountain r o ts).document = none))
    ∧ (∀ c : PDFContent, r = .ok c → (jsTrim c.text = "" ∨ c.pages = []) →
        (convertPDFToFountain r o ts).success = false ∧
          (convertPDFToFountain r o ts).document = none) := by
  constructor
  · match r with
    | .error msg => right; simp [convertPDFToFountain]
    | .ok c =>
      by_cases h1 : jsTrim c.text = ""
      · right; simp [convertPDFToFountain, h1]
      · by_cases h2 : c.pages.length = 0
        · right; simp [convertPDFToFountain, h1, h2]
        · left; simp [convertPDFToFountain, h1, h2]
  · intro c hr hc
    subst hr
    rcases hc with h | h
    · simp [convertPDFToFountain, h]
    · simp only [convertPDFToFountain, h]
      split <;> exact ⟨rfl, rfl⟩

/-- C9 witness: an empty PDF (no text, no pages) yields a failure result
with no document. -/
theorem C9_witness :
    (convertPDFToFountain (.ok emptyPdfContent) optsNone "T").success = false ∧
      (convertPDFToFountain (.ok emptyPdfContent) optsNone "T").document = none :=
  (C9_no_partial_result (.ok emptyPdfContent) optsNone "T").2 emptyPdfContent rfl
    (Or.inl (by decide))

/-- Every body classification emits exactly one element. -/
theorem processBodyLine_len (opts : OptsR) (st : ParserState) (l : String) :
    ((processBodyLine opts st l).2).length = 1 := by
  unfold processBodyLine
  split_ifs <;> rfl

/-- Body classification touches neither the title-page flag nor the
buffer. -/
theorem processBodyLine_titleFields (opts : OptsR) (st : ParserState) (l : String) :
    ((processBodyLine opts st l).1).inTitlePage = st.inTitlePage ∧
      ((processBodyLine opts st l).1).titlePageLines = st.titlePageLines := by
  unfold processBodyLine
  split_ifs <;> exact ⟨rfl, rfl⟩

/-- Body classification never decreases the scene count. -/
theorem processBodyLine_sceneMono (opts : OptsR) (st : ParserState) (l : String) :
    st.sceneCount ≤ ((processBodyLine opts st l).1).sceneCount := by
  unfold processBodyLine
  split_ifs <;> simp

/-- If the body classification increased the scene count, it emitted a
scene heading. -/
theorem processBodyLine_sceneEmit (opts : OptsR) (st : ParserState) (l : String)
    (h : st.sceneCount < ((processBodyLine opts st l).1).sceneCount) :
    ∃ e ∈ (processBodyLine opts st l).2, e.type = "scene_heading" := by
  unfold processBodyLine at h ⊢
  split_ifs at h ⊢ <;> simp_all

/-- Body classification never emits a page break. -/
theorem processBodyLine_noPB (opts : OptsR) (st : ParserState) (l : String) :
    ((processBodyLine opts st l).2).countP isPageBreakElem = 0 := by
  unfold processBodyLine
  split_ifs <;> rfl

/-- Flushed buffer lines are all actions, hence no page breaks. -/
theorem flush_noPB (xs : List String) :
    (xs.map (fun l => (⟨"action", l⟩ : FountainElement))).countP isPageBreakElem = 0 := by
  induction xs with
  | nil => rfl
  | cons a t ih => simp [List.countP_cons, isPageBreakElem, ih]

/-- The number of page-break elements one line emits: one for the
synthetic marker, zero otherwise. -/
theorem processLine_pbCount (opts : OptsR) (st : ParserState) (l : String) :
    ((processLine opts st l).2).countP isPageBreakElem =
      if l = "___PAGE_BREAK___" then 1 else 0 := by
  simp only [processLine]
  split_ifs with h1 <;>
    simp_all [List.countP_cons, List.countP_append, isPageBreakElem,
      processBodyLine_noPB, flush_noPB]

/-- Page-break elements of the main pass correspond exactly to the marker
lines of the input sequence. -/
theorem runLines_pbCount (opts : OptsR) (lines : List String) : ∀ st : ParserState,
    ((runLines opts st lines).2).countP isPageBreakElem =
      lines.countP (fun l => l == "___PAGE_BREAK___") := by
  induction lines with
  | nil => intro st; rfl
  | cons l ls ih =>
    intro st
    simp only [runLines, List.countP_cons, List.countP_append, ih, processLine_pbCount]
    by_cases h : l = "___PAGE_BREAK___" <;> (simp [h]; try omega)

/-- The re-parse of one buffered line never emits a page break. -/
theorem reparseLine_noPB (opts : OptsR) (st : ParserState) (l : String) :
    ((reparseLine opts st l).2).countP isPageBreakElem = 0 := by
  simp only [reparseLine]
  split_ifs <;> rfl

/-- The re-parse of the buffer never emits a page break. -/
theorem runReparse_noPB (opts : OptsR) (lines : List String) : ∀ st : ParserState,
    ((runReparse opts st lines).2).countP isPageBreakElem = 0 := by
  induction lines with
  | nil => intro st; rfl
  | cons l ls ih =>
    intro st
    simp [runReparse, List.countP_append, ih, reparseLine_noPB]

/-- `parseScreenplay`'s element list is the main pass followed by the
(possibly empty) re-parse tail. -/
theorem parseScreenplay_elems (c : PDFContent) (o : ConversionOptions) (ts : String) :
    (parseScreenplay c o ts).elements = (mainPass c o).2 ++ reparseTailD c o := by
  simp only [parseScreenplay, mainPass, reparseTailD]
  split <;> simp

/-- When the pages are numbered consecutively starting at `k+1` and ending
exactly at the page count `n`, the concatenation of lines-plus-conditional-
markers is the interleaving with one marker between adjacent pages. -/
theorem buildFromPages_interleave (ps : List PDFPage) : ∀ (k n : Nat),
    k + ps.length = n → ps.map PDFPage.pageNumber = List.range' (k + 1) ps.length →
    buildFromPages n ps = interleaveMarkers (ps.map PDFPage.lines) := by
  induction ps with
  | nil => intro k n _ _; rfl
  | cons p rest ih =>
    intro k n hk hm
    simp only [List.map_cons, List.length_cons, List.range'_succ, List.cons.injEq] at hm
    obtain ⟨hp, hrest⟩ := hm
    cases rest with
    | nil =>
      have hn : n = k + 1 := by
        simp only [List.length_cons, List.length_nil] at hk; omega
      simp [buildFromPages, interleaveMarkers, hp, hn]
    | cons q qs =>
      have hlt : p.pageNumber < n := by
        rw [hp]; simp only [List.length_cons] at hk; omega
      have ihr : buildFromPages n (q :: qs) =
          interleaveMarkers ((q :: qs).map PDFPage.lines) := by
        apply ih (k + 1)
        · simp only [List.length_cons] at hk ⊢; omega
        · exact hrest
      simp only [buildFromPages, List.map_cons, List.flatten_cons] at ihr ⊢
      rw [if_pos hlt, ihr]
      simp [interleaveMarkers]

/-- Counting markers in an interleaving of marker-free blocks gives the
number of gaps between blocks. -/
theorem interleave_mcount (xss : List (List String))
    (h : ∀ ls ∈ xss, ∀ l ∈ ls, l ≠ "___PAGE_BREAK___") :
    (interleaveMarkers xss).countP (fun l => l == "___PAGE_BREAK___") =
      xss.length - 1 := by
  induction xss with
  | nil => rfl
  | cons ls rest ih =>
    have hls : ls.countP (fun l => l == "___PAGE_BREAK___") = 0 := by
      rw [List.countP_eq_zero]
      intro a ha
      simpa using h ls (by simp) a ha
    cases rest with
    | nil => simpa [interleaveMarkers] using hls
    | cons y ys =>
      have hr := ih (fun m hm => h m (by simp [hm]))
      simp only [interleaveMarkers, List.countP_append, List.countP_cons, hls,
        beq_self_eq_true, if_true] at hr ⊢
      simp only [List.length_cons] at hr ⊢
      omega

/-- The re-parse tail contains no page breaks. -/
theorem reparseTailD_noPB (c : PDFContent) (o : ConversionOptions) :
    (reparseTailD c o).countP isPageBreakElem = 0 := by
  simp only [reparseTailD]
  split
  · exact runReparse_noPB _ _ _
  · rfl

/-- C6 amended: a page-break marker is inserted after a page exactly when
its `pageNumber` is smaller than the number of pages.  When the pages are
numbered consecutively `1..n` (the only shape `parsePages` produces when no
form-feed chunk is skipped) and no source line equals the marker string,
the concatenated sequence has exactly one marker between each pair of
adjacent pages and none after the last, and the document contains exactly
`n - 1` page-break elements; but when empty chunks are skipped the page
numbers have gaps and adjacent pages can get no marker (see the
counterexample). -/
theorem C6_amended_theorem (c : PDFContent) (o : ConversionOptions) (ts : String)
    (hnum : c.pages.map PDFPage.pageNumber = List.range' 1 c.pages.length)
    (hnom : ∀ p ∈ c.pages, ∀ l ∈ p.lines, l ≠ "___PAGE_BREAK___") :
    buildAllLines c = interleaveMarkers (c.pages.map PDFPage.lines) ∧
      (parseScreenplay c o ts).elements.countP isPageBreakElem =
        c.pages.length - 1 := by
  have h1 : buildAllLines c = interleaveMarkers (c.pages.map PDFPage.lines) := by
    apply buildFromPages_interleave c.pages 0 c.pages.length (by omega)
    simpa using hnum
  refine ⟨h1, ?_⟩
  rw [parseScreenplay_elems, List.countP_append, reparseTailD_noPB, mainPass,
    runLines_pbCount, h1, interleave_mcount]
  · simp
  · intro ls hls
    rcases List.mem_map.1 hls with ⟨p, hp, rfl⟩
    exact hnom p hp

/-- C6 witness: two consecutively numbered pages get exactly one marker
between them and one page-break element in the document. -/
theorem C6_witness :
    buildAllLines twoPagesContent = ["a", "___PAGE_BREAK___", "b"] ∧
      (parseScreenplay twoPagesContent optsNone "T").elements.countP isPageBreakElem = 1 :=
  ⟨(C6_amended_theorem twoPagesContent optsNone "T" (by decide) (by decide)).1.trans
      (by decide),
    (C6_amended_theorem twoPagesContent optsNone "T" (by decide) (by decide)).2⟩

/-- The per-line blocks of the main pass concatenate to its element list,
ending in the same state, with one block per input line. -/
theorem runLinesPieces_spec (opts : OptsR) (lines : List String) : ∀ st : ParserState,
    (runLinesPieces opts st lines).1 = (runLines opts st lines).1 ∧
      ((runLinesPieces opts st lines).2).flatten = (runLines opts st lines).2 ∧
      ((runLinesPieces opts st lines).2).length = lines.length := by
  induction lines with
  | nil => intro st; exact ⟨rfl, rfl, rfl⟩
  | cons l ls ih =>
    intro st
    obtain ⟨h1, h2, h3⟩ := ih (processLine opts st l).1
    exact ⟨h1, by simp [runLinesPieces, runLines, h2], by simp [runLinesPieces, h3]⟩

/-- The per-line blocks of the buffer re-parse concatenate to its element
list, one block per buffered line. -/
theorem runReparsePieces_spec (opts : OptsR) (lines : List String) : ∀ st : ParserState,
    ((runReparsePieces opts st lines).2).flatten = (runReparse opts st lines).2 ∧
      ((runReparsePieces opts st lines).2).length = lines.length := by
  induction lines with
  | nil => intro st; exact ⟨rfl, rfl⟩
  | cons l ls ih =>
    intro st
    obtain ⟨h1, h2⟩ := ih (reparseLine opts st l).1
    exact ⟨by simp [runReparsePieces, runReparse, h1], by simp [runReparsePieces, h2]⟩

/-- C2 amended: within the single main pass, source order is preserved —
the element list is the in-order concatenation of one block per input line,
so elements of an earlier line precede elements of a later line and no
element merges lines; however, leading lines buffered for the title page
and reclassified by the end-of-input fallback are appended after the whole
main pass (in buffer order, again one block per line), so they can appear
after elements — notes or page breaks — emitted from later lines (see the
counterexample). -/
theorem C2_amended_theorem (c : PDFContent) (o : ConversionOptions) (ts : String) :
    (parseScreenplay c o ts).elements = (mainPass c o).2 ++ reparseTailD c o
    ∧ (mainPass c o).2 =
        ((runLinesPieces (resolveOpts o) initState (buildAllLines c)).2).flatten
    ∧ ((runLinesPieces (resolveOpts o) initState (buildAllLines c)).2).length =
        (buildAllLines c).length
    ∧ (reparseTailD c o = [] ∨
        reparseTailD c o =
          ((runReparsePieces (resolveOpts o) reparsedInit
              ((mainPass c o).1).titlePageLines).2).flatten) := by
  refine ⟨parseScreenplay_elems c o ts,
    ((runLinesPieces_spec (resolveOpts o) (buildAllLines c) initState).2.1).symm,
    (runLinesPieces_spec (resolveOpts o) (buildAllLines c) initState).2.2, ?_⟩
  simp only [reparseTailD]
  split
  · exact Or.inr
      ((runReparsePieces_spec (resolveOpts o) _ reparsedInit).1).symm
  · exact Or.inl rfl

/-- Any lower bound on the scene count survives a body classification. -/
theorem processBodyLine_sceneCount_le (opts : OptsR) (st : ParserState) (l : String)
    {n : Nat} (h : n ≤ st.sceneCount) :
    n ≤ ((processBodyLine opts st l).1).sceneCount :=
  Nat.le_trans h (processBodyLine_sceneMono opts st l)

/-- The line step never decreases the scene count. -/
theorem processLine_sceneMono (opts : OptsR) (st : ParserState) (l : String) :
    st.sceneCount ≤ ((processLine opts st l).1).sceneCount := by
  simp only [processLine]
  split_ifs
  all_goals first
    | exact Nat.le_refl _
    | exact processBodyLine_sceneCount_le _ _ _ (Nat.le_refl _)
    | exact processBodyLine_sceneCount_le _ _ _ (Nat.le_succ _)

/-- If a line step increased the scene count, it emitted a scene heading. -/
theorem processLine_sceneEmit (opts : OptsR) (st : ParserState) (l : String)
    (h : st.sceneCount < ((processLine opts st l).1).sceneCount) :
    ∃ e ∈ (processLine opts st l).2, e.type = "scene_heading" := by
  simp only [processLine] at h ⊢
  split_ifs at h ⊢ with h1 h2 h3 h4 h5 h6 h7 h8 h9 h10 h11
  · exact absurd h (lt_irrefl _)
  · exact absurd h (lt_irrefl _)
  · exact absurd h (lt_irrefl _)
  · exact absurd h (lt_irrefl _)
  · exact absurd h (lt_irrefl _)
  · exact absurd h (lt_irrefl _)
  · exact absurd h (lt_irrefl _)
  · simp [processBodyLine, h9]
  · exact processBodyLine_sceneEmit _ _ _ h
  · have hcap : ({ st with titlePageLines := [], inTitlePage := false } : ParserState).sceneCount <
        ((processBodyLine opts { st with titlePageLines := [], inTitlePage := false }
          (jsTrim l)).1).sceneCount := h
    rcases processBodyLine_sceneEmit _ _ _ hcap with ⟨e, he, ht⟩
    exact ⟨e, List.mem_append_right _ he, ht⟩
  · exact absurd h (lt_irrefl _)
  · exact processBodyLine_sceneEmit _ _ _ h

/-- If the main pass increased the scene count, it emitted a scene
heading. -/
theorem runLines_sceneEmit (opts : OptsR) (lines : List String) : ∀ st : ParserState,
    st.sceneCount < ((runLines opts st lines).1).sceneCount →
    ∃ e ∈ (runLines opts st lines).2, e.type = "scene_heading" := by
  induction lines with
  | nil => intro st h; exact absurd h (lt_irrefl _)
  | cons l ls ih =>
    intro st h
    simp only [runLines] at h ⊢
    by_cases hlt : st.sceneCount < ((processLine opts st l).1).sceneCount
    · rcases processLine_sceneEmit opts st l hlt with ⟨e, he, ht⟩
      exact ⟨e, List.mem_append_left _ he, ht⟩
    · have heq : ((processLine opts st l).1).sceneCount = st.sceneCount :=
        Nat.le_antisymm (Nat.not_lt.1 hlt) (processLine_sceneMono opts st l)
      rcases ih (processLine opts st l).1 (by rw [heq]; exact h) with ⟨e, he, ht⟩
      exact ⟨e, List.mem_append_right _ he, ht⟩

/-- A document carries a title page only if the main pass counted at least
one scene. -/
theorem parseScreenplay_titlePage_some (c : PDFContent) (o : ConversionOptions)
    (ts : String) (h : (parseScreenplay c o ts).titlePage.isSome = true) :
    0 < ((mainPass c o).1).sceneCount := by
  simp only [parseScreenplay, mainPass] at h ⊢
  split at h
  · simp at h
  · split at h
    · rename_i hcond
      simp only [Bool.and_eq_true, decide_eq_true_eq] at hcond
      exact hcond.2
    · simp at h

/-- While the main loop has never left title-page mode, no scene has been
counted (every branch that increments the scene count also clears the
flag, and the body classifier never resets it). -/
theorem processLine_titleScene0 (opts : OptsR) (st : ParserState) (l : String)
    (h : st.inTitlePage = true → st.sceneCount = 0) :
    ((processLine opts st l).1).inTitlePage = true →
      ((processLine opts st l).1).sceneCount = 0 := by
  simp only [processLine]
  split_ifs with h1 h2 h3 h4 h5 h6 h7 h8 h9 h10 h11
  · exact h
  · exact fun _ => h h3
  · exact fun _ => h h3
  · exact fun hT => h hT
  · exact h
  · exact h
  · exact h
  · intro hT
    have hT2 : ((processBodyLine opts
        { st with inTitlePage := false, sceneCount := st.sceneCount + 1 }
        (jsTrim l)).1).inTitlePage = true := hT
    rw [(processBodyLine_titleFields _ _ _).1] at hT2
    simp at hT2
  · intro hT
    have hT2 : ((processBodyLine opts { st with inTitlePage := false }
        (jsTrim l)).1).inTitlePage = true := hT
    rw [(processBodyLine_titleFields _ _ _).1] at hT2
    simp at hT2
  · intro hT
    have hT2 : ((processBodyLine opts
        { st with titlePageLines := [], inTitlePage := false }
        (jsTrim l)).1).inTitlePage = true := hT
    rw [(processBodyLine_titleFields _ _ _).1] at hT2
    simp at hT2
  · exact fun _ => h h8
  · intro hT
    rw [(processBodyLine_titleFields _ _ _).1] at hT
    exact absurd hT h8

/-- The title-mode-implies-no-scene invariant holds along the whole main
pass. -/
theorem runLines_titleScene0 (opts : OptsR) (lines : List String) : ∀ st : ParserState,
    (st.inTitlePage = true → st.sceneCount = 0) →
    ((runLines opts st lines).1).inTitlePage = true →
      ((runLines opts st lines).1).sceneCount = 0 := by
  induction lines with
  | nil => intro st h; exact h
  | cons l ls ih =>
    intro st h
    exact ih _ (processLine_titleScene0 opts st l h)

/-- The re-parse of one buffered line emits only ordinary body elements:
parenthetical, character, dialogue, transition or action. -/
theorem reparseLine_types (opts : OptsR) (st : ParserState) (l : String) :
    ∀ e ∈ (reparseLine opts st l).2,
      e.type = "parenthetical" ∨ e.type = "character" ∨ e.type = "dialogue" ∨
        e.type = "transition" ∨ e.type = "action" := by
  simp only [reparseLine]
  split_ifs <;> simp

/-- The re-parse of the whole buffer emits only ordinary body elements. -/
theorem runReparse_types (opts : OptsR) (lines : List String) : ∀ st : ParserState,
    ∀ e ∈ (runReparse opts st lines).2,
      e.type = "parenthetical" ∨ e.type = "character" ∨ e.type = "dialogue" ∨
        e.type = "transition" ∨ e.type = "action" := by
  induction lines with
  | nil => intro st e he; exact absurd he (List.not_mem_nil e)
  | cons l ls ih =>
    intro st e he
    simp only [runReparse, List.mem_append] at he
    rcases he with he | he
    · exact reparseLine_types opts st l e he
    · exact ih _ e he

/-- C3: a title page is attached to the returned document only if at least
one scene heading was found (the main pass counted a scene, and every scene
count increment is accompanied by an emitted `scene_heading` element); when
no scene heading element exists anywhere in the output, no `titlePage`
field is present; and when the parser finishes all lines still accumulating
a nonempty title-page buffer (so no scene heading was ever found), the
accumulated leading lines are reclassified and appended to the output after
the main-pass elements, each appended element being an ordinary body
element (parenthetical, character, dialogue, transition or action). -/
theorem C3_title_page (c : PDFContent) (o : ConversionOptions) (ts : String) :
    ((parseScreenplay c o ts).titlePage.isSome = true →
      ∃ e ∈ (parseScreenplay c o ts).elements, e.type = "scene_heading")
    ∧ ((∀ e ∈ (parseScreenplay c o ts).elements, e.type ≠ "scene_heading") →
        (parseScreenplay c o ts).titlePage = none)
    ∧ (((mainPass c o).1).inTitlePage = true →
        0 < ((mainPass c o).1).titlePageLines.length →
        (parseScreenplay c o ts).elements =
          (mainPass c o).2 ++
            (runReparse (resolveOpts o) reparsedInit
              ((mainPass c o).1).titlePageLines).2
        ∧ ∀ e ∈ (runReparse (resolveOpts o) reparsedInit
              ((mainPass c o).1).titlePageLines).2,
            e.type = "parenthetical" ∨ e.type = "character" ∨ e.type = "dialogue" ∨
              e.type = "transition" ∨ e.type = "action") := by
  have main : (parseScreenplay c o ts).titlePage.isSome = true →
      ∃ e ∈ (parseScreenplay c o ts).elements, e.type = "scene_heading" := by
    intro h
    have hpos : 0 < ((mainPass c o).1).sceneCount :=
      parseScreenplay_titlePage_some c o ts h
    rcases runLines_sceneEmit (resolveOpts o) (buildAllLines c) initState hpos with
      ⟨e, he, ht⟩
    rw [parseScreenplay_elems]
    exact ⟨e, List.mem_append_left _ he, ht⟩
  refine ⟨main, ?_, ?_⟩
  · intro hall
    by_contra hne
    rcases main (Option.ne_none_iff_isSome.1 hne) with ⟨e, he, ht⟩
    exact hall e he ht
  · intro hT hlen
    have h0 : ((mainPass c o).1).sceneCount = 0 :=
      runLines_titleScene0 (resolveOpts o) (buildAllLines c) initState (fun _ => rfl) hT
    have hcond : (((mainPass c o).1).inTitlePage &&
        decide (0 < ((mainPass c o).1).titlePageLines.length) &&
        (((mainPass c o).1).sceneCount == 0)) = true := by
      simp [hT, hlen, h0]
    refine ⟨?_, runReparse_types _ _ _⟩
    rw [parseScreenplay_elems]
    congr 1
    simp only [reparseTailD]
    rw [if_pos hcond]

/-- C3 witness: the two-line input with a scene heading commits its leading
line as a title page and the output contains a scene heading; the no-scene
input finishes accumulating, so its buffered leading line is reclassified
and appended after the main-pass elements. -/
theorem C3_witness :
    ((parseScreenplay titleAbsorbContent optsNone "T").titlePage.isSome = true ∧
      ∃ e ∈ (parseScreenplay titleAbsorbContent optsNone "T").elements,
        e.type = "scene_heading") ∧
      (parseScreenplay noteReorderContent optsNone "T").elements =
        (mainPass noteReorderContent optsNone).2 ++
          (runReparse (resolveOpts optsNone) reparsedInit
            ((mainPass noteReorderContent optsNone).1).titlePageLines).2 :=
  ⟨⟨by decide, (C3_title_page titleAbsorbContent optsNone "T").1 (by decide)⟩,
    ((C3_title_page noteReorderContent optsNone "T").2.2 (by decide) (by decide)).1⟩

/-- With scene detection off, the number of elements a line emits depends
only on the line: one for the marker and for each non-blank non-page-number
line, zero otherwise. -/
theorem processLine_len_noDetect (opts : OptsR) (hdet : opts.detectSceneHeadings = false)
    (st : ParserState) (l : String) :
    ((processLine opts st l).2).length = if countsAsElement l then 1 else 0 := by
  simp only [processLine, hdet, Bool.false_and, Bool.not_false]
  split_ifs with h1 h2 h3 h4 h5 h6 h7 h8 <;>
    simp_all [countsAsElement, processBodyLine_len]

/-- With scene detection off, the main pass emits exactly one element per
qualifying line. -/
theorem runLines_len_noDetect (opts : OptsR) (hdet : opts.detectSceneHeadings = false)
    (lines : List String) : ∀ st : ParserState,
    ((runLines opts st lines).2).length = lines.countP countsAsElement := by
  induction lines with
  | nil => intro st; rfl
  | cons l ls ih =>
    intro st
    simp only [runLines, List.length_append, processLine_len_noDetect opts hdet, ih,
      List.countP_cons]
    by_cases h : countsAsElement l = true <;> (simp [h]; try omega)

/-- With scene detection off, only blank lines ever enter the title-page
buffer. -/
theorem processLine_blankInv (opts : OptsR) (hdet : opts.detectSceneHeadings = false)
    (st : ParserState) (l : String) (hb : bufferAllBlank st) :
    bufferAllBlank ((processLine opts st l).1) := by
  simp only [processLine, hdet, Bool.false_and, Bool.not_false]
  split_ifs with h1 h2 h3 h4 h5 h6 h7 h8 h9
  · exact hb
  · intro hT a ha
    simp only [List.mem_append, List.mem_singleton] at ha
    rcases ha with ha | ha
    · exact hb h3 a ha
    · exact ha
  · intro hT a ha
    simp only [List.mem_append, List.mem_singleton] at ha
    rcases ha with ha | ha
    · exact hb h3 a ha
    · exact ha
  · exact fun hT => hb hT
  · exact hb
  · exact hb
  · exact hb
  · exact h9.elim
  · intro hT
    rw [(processBodyLine_titleFields _ _ _).1] at hT
    simp at hT
  · intro hT
    rw [(processBodyLine_titleFields _ _ _).1] at hT
    exact absurd hT h8

/-- With scene detection off the blank-buffer invariant is preserved along
the whole main pass. -/
theorem runLines_blankInv (opts : OptsR) (hdet : opts.detectSceneHeadings = false)
    (lines : List String) : ∀ st : ParserState, bufferAllBlank st →
    bufferAllBlank ((runLines opts st lines).1) := by
  induction lines with
  | nil => intro st hb; exact hb
  | cons l ls ih =>
    intro st hb
    exact ih _ (processLine_blankInv opts hdet st l hb)

/-- Re-parsing a buffer of blank lines emits nothing. -/
theorem runReparse_blankElems (opts : OptsR) (lines : List String) :
    ∀ st : ParserState, (∀ l ∈ lines, l = "") →
    ((runReparse opts st lines).2) = [] := by
  induction lines with
  | nil => intro st _; rfl
  | cons l ls ih =>
    intro st hbl
    have hl : l = "" := hbl l (by simp)
    subst hl
    have h1 : (reparseLine opts st "").2 = [] := rfl
    simp only [runReparse, h1, List.nil_append]
    exact ih _ (fun x hx => hbl x (by simp [hx]))

/-- C1 amended: when `detectSceneHeadings` is off (so no title-page
accumulation of non-blank lines happens), every line that is non-blank
after trimming and not a recognized page number yields exactly one element,
every marker line yields exactly one `page_break`, and blank and
page-number lines yield none — the element count equals the count of
qualifying lines.  With scene detection on, the property fails: leading
lines absorbed into a committed title page yield no element (see the
counterexample), and blank lines buffered before a 15-line-cap flush are
emitted as action elements. -/
theorem C1_amended_theorem (c : PDFContent) (o : ConversionOptions) (ts : String)
    (hdet : o.detectSceneHeadings = some false) :
    (parseScreenplay c o ts).elements.length =
      (buildAllLines c).countP countsAsElement := by
  have hr : (resolveOpts o).detectSceneHeadings = false := by
    simp [resolveOpts, hdet]
  rw [parseScreenplay_elems, List.length_append]
  have hmain : ((mainPass c o).2).length = (buildAllLines c).countP countsAsElement :=
    runLines_len_noDetect _ hr _ _
  have htail : (reparseTailD c o).length = 0 := by
    simp only [reparseTailD]
    split
    · rename_i hcond
      simp only [Bool.and_eq_true] at hcond
      have hinv : bufferAllBlank ((mainPass c o).1) :=
        runLines_blankInv _ hr _ initState (fun _ a ha => absurd ha (List.not_mem_nil a))
      rw [runReparse_blankElems _ _ _ (hinv hcond.1.1)]
      rfl
    · rfl
  rw [hmain, htail, Nat.add_zero]

/-- C1 witness: with scene detection off, the four-line dialogue example
has three qualifying lines and exactly three elements. -/
theorem C1_witness :
    optsNoScenes.detectSceneHeadings = some false ∧
      (parseScreenplay johnContent optsNoScenes "T").elements.length =
        (buildAllLines johnContent).countP countsAsElement :=
  ⟨rfl, C1_amended_theorem johnContent optsNoScenes "T" rfl⟩
